import Mathlib

/- Shallow embedding of the ParticleGenerator repository
   (src/ParticleSystem.hpp, src/ParticleSystem.cpp).

   Modelling conventions:
   - float values are modelled as exact rationals;
   - std::cos, std::sin and the constant M_PI are supplied by an abstract
     environment Env, since their float values are transcendental;
   - the random helpers frand and rand2f come from the repository's
     Utils.hpp, which is not part of src/; each spawn consumes one
     RandSample from an oracle stream, and theorems that need the
     documented ranges of those samples take them as hypotheses;
   - a float-to-Uint8 conversion (the alpha write in update) is modelled
     as truncation toward zero followed by reduction mod 256, which is the
     observed x86 behaviour of the static_cast in the source (the cast is
     formally undefined in C++ for values outside [0, 256)). -/

set_option autoImplicit false

namespace PartGen

/-- Two-dimensional vector of rationals, modelling sf::Vector2f. -/
structure Vec2 where
  x : ℚ
  y : ℚ
deriving DecidableEq

/-- RGBA colour, modelling sf::Color (one byte per channel). -/
structure Color where
  r : ℕ
  g : ℕ
  b : ℕ
  a : ℕ
deriving DecidableEq

/-- The visual state of a sprite that the simulation logic reads or
writes: position, rotation in degrees, scale, colour, and the texture
rectangle consulted by ParticleSystem::setSize. The origin and the
texture pointer of the real sf::Sprite are never read back by the
simulation and are not tracked. -/
structure Sprite where
  pos : Vec2
  rotationDeg : ℚ
  scale : Vec2
  color : Color
  texRect : Vec2
deriving DecidableEq

/-- Default-constructed sprite: position (0,0), rotation 0, scale (1,1),
opaque white colour, empty texture rectangle. -/
def initSprite : Sprite :=
  { pos := ⟨0, 0⟩
    rotationDeg := 0
    scale := ⟨1, 1⟩
    color := ⟨255, 255, 255, 255⟩
    texRect := ⟨0, 0⟩ }

/-- ParticleController from ParticleSystem.hpp: constant per-particle
velocity and remaining lifetime. -/
structure ParticleController where
  velocity : Vec2
  lifetime : ℚ
deriving DecidableEq

/-- Particle from ParticleSystem.hpp: a controller plus an owned sprite. -/
structure Particle where
  controller : ParticleController
  sprite : Sprite
deriving DecidableEq

/-- Abstract environment for the transcendental constants used by the
source: std::cos, std::sin and M_PI. The embedding is parametric in
these, since their float values are not rational. -/
structure Env where
  cos : ℚ → ℚ
  sin : ℚ → ℚ
  pi : ℚ

/-- Modelled from the spec: the random helpers frand(a, b) (uniform float
in [a, b]) and rand2f (componentwise uniform jitter inside the respawn
area) live in the repository's Utils.hpp, which is not under src/. Each
spawn consumes one RandSample holding the five draws a spawn can make:
the dispersion draw frand(-dispersion/2, dispersion/2), the lifetime
draw frand(0, lifetimeMax), the two jitter draws rand2f(respawnArea),
and the rotation draw frand(0, 360). Theorems that depend on the
documented ranges of these draws state them as hypotheses. -/
structure RandSample where
  dispSample : ℚ
  lifeSample : ℚ
  jitterX : ℚ
  jitterY : ℚ
  rotSample : ℚ

/-- The engine state: the fields of class ParticleSystem. Angles are
stored in degrees (sf::Angle is consumed via asDegrees/asRadians). -/
structure ParticleSystem where
  m_particles : List Particle
  m_emitter : Vec2
  m_respawn_area : Vec2
  m_particle_size : Vec2
  m_exponential_growth : Vec2
  m_direction : ℚ
  m_dispersion : ℚ
  m_velocity : ℚ
  m_lifetime_max : ℚ
  m_rate : ℚ
  m_timer : ℚ
  m_is_emitted : Bool
  m_is_attenuated : Bool
  m_instance : Sprite
deriving DecidableEq

namespace ParticleSystem

/-- The constructor ParticleSystem::ParticleSystem (ParticleSystem.cpp,
lines 9-19) plus the default member values from the header: empty list,
size (32,32), growth (1,1), everything else zero / false, default
sprite template. -/
def init : ParticleSystem :=
  { m_particles := []
    m_emitter := ⟨0, 0⟩
    m_respawn_area := ⟨0, 0⟩
    m_particle_size := ⟨32, 32⟩
    m_exponential_growth := ⟨1, 1⟩
    m_direction := 0
    m_dispersion := 0
    m_velocity := 0
    m_lifetime_max := 0
    m_rate := 0
    m_timer := 0
    m_is_emitted := false
    m_is_attenuated := false
    m_instance := initSprite }

/-- ParticleSystem::setSize (private): rescale the template sprite so it
renders at the requested size, when the texture rectangle is non-empty. -/
def setSize (spr : Sprite) (size : Vec2) : Sprite :=
  if spr.texRect.x ≠ 0 ∧ spr.texRect.y ≠ 0 then
    { spr with scale := ⟨size.x / |spr.texRect.x|, size.y / |spr.texRect.y|⟩ }
  else spr

/-- ParticleSystem::setParticleSize: store the size and rescale the
template (the origin write is not tracked, see Sprite). -/
def setParticleSize (ps : ParticleSystem) (size : Vec2) : ParticleSystem :=
  { ps with
      m_particle_size := size
      m_instance := setSize ps.m_instance size }

/-- ParticleSystem::setTexture, with the texture represented by its pixel
size. Modelled from the spec: sprite.setTexture on a fresh sprite adopts
the texture rectangle from the texture's native dimensions; then the
source calls setParticleSize with that same size. -/
def setTexture (ps : ParticleSystem) (texSize : Vec2) : ParticleSystem :=
  setParticleSize
    { ps with m_instance := { ps.m_instance with texRect := texSize } } texSize

/-- ParticleSystem::setColor: recolour the template sprite. -/
def setColor (ps : ParticleSystem) (c : Color) : ParticleSystem :=
  { ps with m_instance := { ps.m_instance with color := c } }

/-- ParticleSystem::setEmitter. -/
def setEmitter (ps : ParticleSystem) (emitter : Vec2) : ParticleSystem :=
  { ps with m_emitter := emitter }

/-- ParticleSystem::setDirection (degrees). -/
def setDirection (ps : ParticleSystem) (direction : ℚ) : ParticleSystem :=
  { ps with m_direction := direction }

/-- ParticleSystem::setDispersion (degrees). -/
def setDispersion (ps : ParticleSystem) (dispersion : ℚ) : ParticleSystem :=
  { ps with m_dispersion := dispersion }

/-- ParticleSystem::setVelocity: stores the absolute value. -/
def setVelocity (ps : ParticleSystem) (velocity : ℚ) : ParticleSystem :=
  { ps with m_velocity := |velocity| }

/-- ParticleSystem::setRespawnRate: stores the absolute value. -/
def setRespawnRate (ps : ParticleSystem) (rate : ℚ) : ParticleSystem :=
  { ps with m_rate := |rate| }

/-- ParticleSystem::setRespawnArea. -/
def setRespawnArea (ps : ParticleSystem) (area : Vec2) : ParticleSystem :=
  { ps with m_respawn_area := area }

/-- ParticleSystem::setLifeTime: stores the absolute value. -/
def setLifeTime (ps : ParticleSystem) (lifetime : ℚ) : ParticleSystem :=
  { ps with m_lifetime_max := |lifetime| }

/-- ParticleSystem::setExponentialGrowth. -/
def setExponentialGrowth (ps : ParticleSystem) (factors : Vec2) : ParticleSystem :=
  { ps with m_exponential_growth := factors }

/-- ParticleSystem::setEmitted. -/
def setEmitted (ps : ParticleSystem) (emitted : Bool) : ParticleSystem :=
  { ps with m_is_emitted := emitted }

/-- ParticleSystem::setAttenuated. -/
def setAttenuated (ps : ParticleSystem) (attenuation : Bool) : ParticleSystem :=
  { ps with m_is_attenuated := attenuation }

/-- ParticleSystem::createParticle (ParticleSystem.cpp, lines 234-255):
copy the template sprite, draw a direction inside the dispersion cone,
set velocity from that angle, lifetime frand(0, lifetimeMax) + 1,
position emitter + jitter, random rotation. The draws come from the
oracle sample rs; the angle conversion (direction + random degrees)
.asRadians is deg * pi / 180. -/
def createParticle (env : Env) (ps : ParticleSystem) (rs : RandSample) : Particle :=
  let angle := (ps.m_direction + rs.dispSample) * env.pi / 180
  { controller :=
      { velocity := ⟨env.cos angle * ps.m_velocity, env.sin angle * ps.m_velocity⟩
        lifetime := rs.lifeSample + 1 }
    sprite :=
      { ps.m_instance with
          pos := ⟨ps.m_emitter.x + rs.jitterX, ps.m_emitter.y + rs.jitterY⟩
          rotationDeg := rs.rotSample } }

/-- The body of the loop in ParticleSystem::setExplosion (ParticleSystem
.cpp, lines 99-118): the i-th burst particle, on the circle of the given
radius around the emitter at angle i * offset, with radially outward
velocity and lifetime frand(0, lifetimeMax) + 1. The sprite is copied
from the template (whose rotation is never changed from 0) and only its
position is overwritten. -/
def explosionParticle (env : Env) (ps : ParticleSystem) (radius offset : ℚ)
    (i : ℕ) (rs : RandSample) : Particle :=
  let dir := (i : ℚ) * offset
  let sine := env.sin dir
  let cosine := env.cos dir
  { controller :=
      { velocity := ⟨cosine * ps.m_velocity, sine * ps.m_velocity⟩
        lifetime := rs.lifeSample + 1 }
    sprite :=
      { ps.m_instance with
          pos := ⟨cosine * radius + ps.m_emitter.x, sine * radius + ps.m_emitter.y⟩ } }

/-- ParticleSystem::setExplosion (ParticleSystem.cpp, lines 91-120).
Only acts when the particle list is empty: disables emission, computes
offset = M_PI * 2 / splash_amount (a float division; for splash_amount
= 0 it yields an IEEE infinity, never used because the loop body does
not run), and pushes back splash_amount particles. -/
def setExplosion (env : Env) (ps : ParticleSystem) (splash_amount : ℕ)
    (radius : ℚ) (rnd : ℕ → RandSample) : ParticleSystem :=
  if ps.m_particles = [] then
    let ps1 := setEmitted ps false
    let offset := env.pi * 2 / (splash_amount : ℚ)
    { ps1 with
        m_particles := ps1.m_particles ++
          (List.range splash_amount).map
            (fun i => explosionParticle env ps1 radius offset i (rnd i)) }
  else ps

end ParticleSystem

/-- The float-to-Uint8 conversion in the alpha write of update, modelled
as truncation toward zero (equal to the floor on the non-negative inputs
that occur) followed by reduction mod 256; see the header comment. -/
def toUint8 (q : ℚ) : ℕ := (⌊q⌋).toNat % 256

namespace ParticleSystem

/-- The per-particle work of one pass of the loop in ParticleSystem::
update for a particle whose lifetime check passed (ParticleSystem.cpp,
lines 137-153 and 157): move by velocity * dt, recompute alpha from
lifetime / lifetimeMax when attenuated, multiply the scale by the
exponential growth factors, and decrement the lifetime by dt. -/
def ageParticle (ps : ParticleSystem) (dt : ℚ) (p : Particle) : Particle :=
  let movedPos : Vec2 :=
    ⟨p.sprite.pos.x + p.controller.velocity.x * dt,
     p.sprite.pos.y + p.controller.velocity.y * dt⟩
  let newColor : Color :=
    if ps.m_is_attenuated then
      { p.sprite.color with
          a := toUint8 (p.controller.lifetime / ps.m_lifetime_max * 255) }
    else p.sprite.color
  let newScale : Vec2 :=
    ⟨p.sprite.scale.x * ps.m_exponential_growth.x,
     p.sprite.scale.y * ps.m_exponential_growth.y⟩
  { controller :=
      { velocity := p.controller.velocity
        lifetime := p.controller.lifetime - dt }
    sprite := { p.sprite with pos := movedPos, color := newColor, scale := newScale } }

/-- One iteration of the erase-or-advance loop of ParticleSystem::update
(ParticleSystem.cpp, lines 133-158): a particle is kept (and aged) when
its lifetime measured at the start of the pass is positive, and erased
otherwise. The source also executes lifetime -= dt on the erased
particle, but through a pointer into the just-erased node, so that write
is unobservable (it is a use after free). -/
def stepParticle (ps : ParticleSystem) (dt : ℚ) (p : Particle) : Option Particle :=
  if 0 < p.controller.lifetime then some (ageParticle ps dt p) else none

/-- The drain loop of ParticleSystem::update (ParticleSystem.cpp, lines
127-131): while timer > 1, subtract 1 and spawn one particle. Returns
the number of loop iterations (spawn events) and the final timer. -/
def drain (t : ℚ) : ℕ × ℚ :=
  if h : 1 < t then
    let r := drain (t - 1)
    (r.1 + 1, r.2)
  else
    (0, t)
termination_by (⌈t⌉).toNat
decreasing_by
  have h1 : (1 : ℤ) < ⌈t⌉ := by
    refine Int.lt_ceil.mpr ?_
    exact_mod_cast h
  have h2 : ⌈t - 1⌉ = ⌈t⌉ - 1 := by
    exact_mod_cast Int.ceil_sub_int t 1
  omega

/-- ParticleSystem::update (ParticleSystem.cpp, lines 122-159): advance
the timer when emitting, drain it spawning one particle per crossing,
then run the erase-or-advance pass over the whole list (including the
particles just spawned). The configuration fields read by the pass are
not modified by the spawn phase. -/
def update (env : Env) (ps : ParticleSystem) (dt : ℚ) (rnd : ℕ → RandSample) :
    ParticleSystem :=
  let t0 := if ps.m_is_emitted then ps.m_timer + ps.m_rate * dt else ps.m_timer
  let d := drain t0
  let grown := ps.m_particles ++ (List.range d.1).map (fun i => createParticle env ps (rnd i))
  { ps with
      m_timer := d.2
      m_particles := grown.filterMap (stepParticle ps dt) }

/-- Number of spawn events performed by one call of update: the
iteration count of its drain loop. -/
def updateSpawnCount (ps : ParticleSystem) (dt : ℚ) : ℕ :=
  (drain (if ps.m_is_emitted then ps.m_timer + ps.m_rate * dt else ps.m_timer)).1

/-- The particles appended by the drain loop of one update call. -/
def spawnList (env : Env) (ps : ParticleSystem) (dt : ℚ) (rnd : ℕ → RandSample) :
    List Particle :=
  (List.range (updateSpawnCount ps dt)).map (fun i => createParticle env ps (rnd i))

/-- Run a sequence of update calls; returns the final state and the
total number of spawn events. The oracle rnd gives the sample stream of
the k-th call. -/
def runUpdates (env : Env) (ps : ParticleSystem) (dts : List ℚ)
    (rnd : ℕ → ℕ → RandSample) : ParticleSystem × ℕ :=
  match dts with
  | [] => (ps, 0)
  | d :: rest =>
    let r := runUpdates env (update env ps d (rnd 0)) rest (fun n => rnd (n + 1))
    (r.1, updateSpawnCount ps d + r.2)

/-- The states reachable through the public interface of the class:
the constructor followed by any sequence of setter, setExplosion and
update calls (draw is const and the getters do not mutate). -/
inductive Reachable (env : Env) : ParticleSystem → Prop where
  | init : Reachable env ParticleSystem.init
  | texture {ps sz} : Reachable env ps → Reachable env (setTexture ps sz)
  | color {ps c} : Reachable env ps → Reachable env (setColor ps c)
  | particleSize {ps sz} : Reachable env ps → Reachable env (setParticleSize ps sz)
  | emitter {ps e} : Reachable env ps → Reachable env (setEmitter ps e)
  | direction {ps d} : Reachable env ps → Reachable env (setDirection ps d)
  | dispersion {ps d} : Reachable env ps → Reachable env (setDispersion ps d)
  | velocity {ps v} : Reachable env ps → Reachable env (setVelocity ps v)
  | respawnRate {ps r} : Reachable env ps → Reachable env (setRespawnRate ps r)
  | respawnArea {ps a} : Reachable env ps → Reachable env (setRespawnArea ps a)
  | lifeTime {ps l} : Reachable env ps → Reachable env (setLifeTime ps l)
  | growth {ps f} : Reachable env ps → Reachable env (setExponentialGrowth ps f)
  | emitted {ps b} : Reachable env ps → Reachable env (setEmitted ps b)
  | attenuated {ps b} : Reachable env ps → Reachable env (setAttenuated ps b)
  | explosion {ps n r rnd} : Reachable env ps → Reachable env (setExplosion env ps n r rnd)
  | step {ps dt rnd} : Reachable env ps → Reachable env (update env ps dt rnd)

end ParticleSystem

/-- A fixed environment for concrete evaluations; the claims settled on
concrete inputs do not depend on the values of cos, sin or pi. -/
def envZero : Env := ⟨fun _ => 1, fun _ => 0, 3⟩

/-- A fixed all-zero random sample for concrete evaluations. -/
def rsZero : RandSample := ⟨0, 0, 0, 0, 0⟩

/-- Constant sample stream for one call. -/
def rndZero : ℕ → RandSample := fun _ => rsZero

/-- Constant sample stream for a run of calls. -/
def rnd2Zero : ℕ → ℕ → RandSample := fun _ _ => rsZero

/-- A default particle carrying a given lifetime, for concrete states. -/
def particleWithLifetime (l : ℚ) : Particle :=
  { controller := { velocity := ⟨0, 0⟩, lifetime := l }
    sprite := initSprite }

/-- The scenario state of C1: fresh engine with respawnRate 2 and
emission enabled, built through the setters. -/
def psScenarioC1 : ParticleSystem :=
  ParticleSystem.setEmitted (ParticleSystem.setRespawnRate ParticleSystem.init 2) true

/-- Concrete state for the retirement-timing claims: one particle whose
lifetime is exactly 1. -/
def psOneTick : ParticleSystem :=
  { ParticleSystem.init with m_particles := [particleWithLifetime 1] }

/-- Concrete state for the attenuation claim: lifetimeMax 1, attenuation
on, one particle with lifetime 2 (a fresh particle can exceed
lifetimeMax because of the +1 in the lifetime draw). -/
def psAlpha : ParticleSystem :=
  { ParticleSystem.init with
      m_particles := [particleWithLifetime 2]
      m_lifetime_max := 1
      m_is_attenuated := true }

/-- Concrete non-empty state for the burst no-op claim. -/
def psBusy : ParticleSystem :=
  { ParticleSystem.init with
      m_particles := [particleWithLifetime 5]
      m_timer := 1/2
      m_is_emitted := true }

/-- Concrete empty state with emission on, for the splashAmount = 0
claim. -/
def psArmed : ParticleSystem :=
  ParticleSystem.setEmitted ParticleSystem.init true

end PartGen

namespace PartGen

namespace ParticleSystem

theorem drain_of_not_gt {t : ℚ} (h : ¬ 1 < t) : drain t = (0, t) := by
  rw [drain]
  simp [h]

theorem drain_of_gt {t : ℚ} (h : 1 < t) :
    drain t = ((drain (t - 1)).1 + 1, (drain (t - 1)).2) := by
  rw [drain]
  simp [h]

/-- Closed form of the drain loop: for timer value t it spawns
ceil(t) - 1 particles when 1 < t (none otherwise) and leaves the timer
at t minus the spawn count. -/
theorem drain_spec (t : ℚ) :
    drain t = (if 1 < t then (⌈t⌉ - 1).toNat else 0,
               if 1 < t then t - ((⌈t⌉ : ℚ) - 1) else t) := by
  induction t using drain.induct with
  | case1 t h ih =>
    rw [drain_of_gt h]
    have hceil : ⌈t - 1⌉ = ⌈t⌉ - 1 := by exact_mod_cast Int.ceil_sub_int t 1
    have hgt : (1 : ℤ) < ⌈t⌉ := Int.lt_ceil.mpr (by exact_mod_cast h)
    by_cases h1 : 1 < t - 1
    · have h2 : (2 : ℤ) < ⌈t⌉ := by
        have := Int.lt_ceil.mpr (show ((1 : ℤ) : ℚ) < t - 1 by exact_mod_cast h1)
        omega
      rw [ih]
      simp only [h1, if_pos h, hceil, if_true]
      refine Prod.ext ?_ ?_
      · simp only []
        omega
      · simp only []
        push_cast
        ring
    · have hle : t ≤ 2 := by linarith [not_lt.mp h1]
      have h2 : ⌈t⌉ = 2 := by
        have hup : ⌈t⌉ ≤ 2 := Int.ceil_le.mpr (by exact_mod_cast hle)
        omega
      rw [ih]
      simp only [h1, if_neg h1, if_pos h, h2]
      norm_num
  | case2 t h =>
    rw [drain_of_not_gt h]
    simp [h]

/-- After the drain loop the timer is at most 1, whatever it was before. -/
theorem drain_snd_le_one (t : ℚ) : (drain t).2 ≤ 1 := by
  by_cases h : 1 < t
  · have hc : t ≤ (⌈t⌉ : ℚ) := Int.le_ceil t
    rw [drain_spec]
    simp only [if_pos h]
    show t - ((⌈t⌉ : ℚ) - 1) ≤ 1
    linarith
  · rw [drain_of_not_gt h]
    exact not_lt.mp h

/-- The drain loop composes: draining t + s (s nonnegative) spawns as
many particles as draining t and then draining the leftover plus s, and
ends at the same timer. This is the no-drift property: the final count
depends only on the accumulated total. -/
theorem drain_add (t s : ℚ) (hs : 0 ≤ s) :
    drain (t + s) =
      ((drain t).1 + (drain ((drain t).2 + s)).1,
       (drain ((drain t).2 + s)).2) := by
  induction t using drain.induct with
  | case1 t h ih =>
    have hts : 1 < t + s := by linarith
    rw [drain_of_gt hts, drain_of_gt h]
    have harg : t + s - 1 = t - 1 + s := by ring
    rw [harg, ih]
    refine Prod.ext ?_ ?_
    · dsimp only
      omega
    · rfl
  | case2 t h =>
    rw [drain_of_not_gt h]
    refine Prod.ext ?_ ?_
    · dsimp only
      omega
    · rfl

/-- Unfolding of update: the new particle list is the erase-or-advance
pass over the old particles followed by the spawns of this call, and the
new timer is the drained timer. -/
theorem update_eq (env : Env) (ps : ParticleSystem) (dt : ℚ) (rnd : ℕ → RandSample) :
    update env ps dt rnd =
      { ps with
          m_timer := (drain (if ps.m_is_emitted then ps.m_timer + ps.m_rate * dt
                             else ps.m_timer)).2
          m_particles :=
            (ps.m_particles ++ spawnList env ps dt rnd).filterMap (stepParticle ps dt) } :=
  rfl

theorem update_timer (env : Env) (ps : ParticleSystem) (dt : ℚ) (rnd : ℕ → RandSample) :
    (update env ps dt rnd).m_timer =
      (drain (if ps.m_is_emitted then ps.m_timer + ps.m_rate * dt else ps.m_timer)).2 :=
  rfl

theorem update_is_emitted (env : Env) (ps : ParticleSystem) (dt : ℚ) (rnd : ℕ → RandSample) :
    (update env ps dt rnd).m_is_emitted = ps.m_is_emitted :=
  rfl

theorem update_rate (env : Env) (ps : ParticleSystem) (dt : ℚ) (rnd : ℕ → RandSample) :
    (update env ps dt rnd).m_rate = ps.m_rate :=
  rfl

/-- The erase-or-advance pass written as filter-then-map: exactly the
particles whose lifetime was positive at the start of the pass survive,
each aged by dt. -/
theorem filterMap_stepParticle (ps : ParticleSystem) (dt : ℚ) (l : List Particle) :
    l.filterMap (stepParticle ps dt) =
      (l.filter (fun p => decide (0 < p.controller.lifetime))).map (ageParticle ps dt) := by
  induction l with
  | nil => rfl
  | cons p l ih =>
    by_cases h : 0 < p.controller.lifetime <;>
      simp [stepParticle, h, ih]

/-- The particle list produced by update, in filter-then-map form. -/
theorem update_particles (env : Env) (ps : ParticleSystem) (dt : ℚ) (rnd : ℕ → RandSample) :
    (update env ps dt rnd).m_particles =
      ((ps.m_particles ++ spawnList env ps dt rnd).filter
          (fun p => decide (0 < p.controller.lifetime))).map (ageParticle ps dt) := by
  rw [update_eq]
  exact filterMap_stepParticle ps dt _

/-- Total spawn count of a run of update calls with emission on: it
equals the drain count of the accumulated total timer₀ + rate * sum dts,
so it is independent of how the total time is split into calls. The
hypothesis timer₀ ≤ 1 holds in every reachable state. -/
theorem runUpdates_count (env : Env) (dts : List ℚ) (rnd : ℕ → ℕ → RandSample)
    (ps : ParticleSystem) (hem : ps.m_is_emitted = true) (hr : 0 ≤ ps.m_rate)
    (ht : ps.m_timer ≤ 1) (hd : ∀ d ∈ dts, 0 ≤ d) :
    (runUpdates env ps dts rnd).2 = (drain (ps.m_timer + ps.m_rate * dts.sum)).1 ∧
      (runUpdates env ps dts rnd).1.m_timer = (drain (ps.m_timer + ps.m_rate * dts.sum)).2 := by
  induction dts generalizing ps rnd with
  | nil =>
    have hdrain : drain ps.m_timer = (0, ps.m_timer) := drain_of_not_gt (not_lt.mpr ht)
    constructor
    · show 0 = (drain (ps.m_timer + ps.m_rate * ([] : List ℚ).sum)).1
      rw [List.sum_nil, mul_zero, add_zero, hdrain]
    · show ps.m_timer = (drain (ps.m_timer + ps.m_rate * ([] : List ℚ).sum)).2
      rw [List.sum_nil, mul_zero, add_zero, hdrain]
  | cons d rest ih =>
    have hd0 : 0 ≤ d := hd d (List.mem_cons_self d rest)
    have hdrest : ∀ x ∈ rest, 0 ≤ x := fun x hx => hd x (List.mem_cons_of_mem d hx)
    have hsum : 0 ≤ rest.sum := List.sum_nonneg hdrest
    set ps1 := update env ps d (rnd 0) with hps1
    have hem1 : ps1.m_is_emitted = true := by rw [hps1, update_is_emitted]; exact hem
    have hr1 : ps1.m_rate = ps.m_rate := by rw [hps1, update_rate]
    have ht1 : ps1.m_timer ≤ 1 := by rw [hps1, update_timer]; exact drain_snd_le_one _
    have htimer1 : ps1.m_timer = (drain (ps.m_timer + ps.m_rate * d)).2 := by
      rw [hps1, update_timer, hem]
      simp only [if_pos]
    have hcount1 : updateSpawnCount ps d = (drain (ps.m_timer + ps.m_rate * d)).1 := by
      rw [updateSpawnCount, hem]
      simp only [if_pos]
    obtain ⟨ihc, iht⟩ := ih (fun n => rnd (n + 1)) ps1 hem1 (by rw [hr1]; exact hr) ht1 hdrest
    have hadd := drain_add (ps.m_timer + ps.m_rate * d) (ps.m_rate * rest.sum)
      (mul_nonneg hr hsum)
    have hsum_eq : ps.m_timer + ps.m_rate * (d :: rest).sum =
        ps.m_timer + ps.m_rate * d + ps.m_rate * rest.sum := by
      rw [List.sum_cons]
      ring
    constructor
    · show updateSpawnCount ps d + (runUpdates env ps1 rest (fun n => rnd (n + 1))).2 =
        (drain (ps.m_timer + ps.m_rate * (d :: rest).sum)).1
      rw [htimer1, hr1] at ihc
      rw [hcount1, ihc, hsum_eq, hadd]
    · show (runUpdates env ps1 rest (fun n => rnd (n + 1))).1.m_timer =
        (drain (ps.m_timer + ps.m_rate * (d :: rest).sum)).2
      rw [htimer1, hr1] at iht
      rw [iht, hsum_eq, hadd]

theorem drain_zero : drain (0 : ℚ) = (0, 0) := drain_of_not_gt (by norm_num)

theorem drain_one : drain (1 : ℚ) = (0, 1) := drain_of_not_gt (by norm_num)

theorem drain_two : drain (2 : ℚ) = (1, 1) := by
  rw [drain_of_gt (by norm_num)]
  norm_num [drain_one]

theorem drain_three : drain (3 : ℚ) = (2, 1) := by
  rw [drain_of_gt (by norm_num)]
  norm_num [drain_two]

theorem psScenarioC1_rate : psScenarioC1.m_rate = 2 := by
  show |(2 : ℚ)| = 2
  rw [abs_of_nonneg (by norm_num)]

/-- C1, counterexample: with respawnRate = 2 and isEmitted = true, three
successive update(0.5) calls spawn 2 particles in total, not the 3 the
claim predicts: the timer reaches exactly 1.0 after the first call and
the drain loop's condition is strict (timer > 1.0f), so the first
crossing does not spawn. All the float arithmetic involved (2 * 0.5 and
the timer sums) is exact in binary floating point, so the rational model
agrees with the source here. -/
theorem c1_counterexample :
    (runUpdates envZero psScenarioC1 [1/2, 1/2, 1/2] rnd2Zero).2 = 2 ∧
      (runUpdates envZero psScenarioC1 [1/2, 1/2, 1/2] rnd2Zero).2 ≠ 3 := by
  have hsum : ([1/2, 1/2, 1/2] : List ℚ).sum = 3/2 := by norm_num
  have h := (runUpdates_count envZero [1/2, 1/2, 1/2] rnd2Zero psScenarioC1 rfl
    (by rw [psScenarioC1_rate]; norm_num)
    (show (0 : ℚ) ≤ 1 by norm_num)
    (by norm_num)).1
  rw [hsum, psScenarioC1_rate] at h
  have harg : psScenarioC1.m_timer + 2 * (3/2 : ℚ) = 3 := by
    show (0 : ℚ) + 2 * (3/2) = 3
    norm_num
  rw [harg, drain_three] at h
  exact ⟨h, by rw [h]; norm_num⟩

/-- C1 (amended): over any sequence of update(dt) calls with dt ≥ 0,
emission enabled and rate ≥ 0, starting from a timer t₀ ≤ 1 (true in
every reachable state), the total number of spawn events equals
ceil(t₀ + rate * T) - 1 when t₀ + rate * T > 1 and 0 otherwise, where T
is the summed time. This depends only on the accumulated total, so it is
independent of how T is split into calls (no drift). The claim's formula
floor(rate * T + t₀) is correct except when rate * T + t₀ is a positive
integer, where the strict loop condition spawns one fewer. -/
theorem c1_spawn_accumulator (env : Env) (ps : ParticleSystem) (dts : List ℚ)
    (rnd : ℕ → ℕ → RandSample) (hem : ps.m_is_emitted = true)
    (hr : 0 ≤ ps.m_rate) (ht : ps.m_timer ≤ 1) (hd : ∀ d ∈ dts, 0 ≤ d) :
    (runUpdates env ps dts rnd).2 =
      if 1 < ps.m_timer + ps.m_rate * dts.sum
      then (⌈ps.m_timer + ps.m_rate * dts.sum⌉ - 1).toNat else 0 := by
  have h := (runUpdates_count env dts rnd ps hem hr ht hd).1
  rw [h, drain_spec]

/-- Witness for c1_spawn_accumulator at the scenario input: the three
0.5-second calls at rate 2 accumulate to exactly 3, and the formula
gives ceil(3) - 1 = 2. -/
theorem c1_spawn_accumulator_witness :
    (runUpdates envZero psScenarioC1 [1/2, 1/2, 1/2] rnd2Zero).2 =
      if 1 < psScenarioC1.m_timer + psScenarioC1.m_rate * ([1/2, 1/2, 1/2] : List ℚ).sum
      then (⌈psScenarioC1.m_timer + psScenarioC1.m_rate * ([1/2, 1/2, 1/2] : List ℚ).sum⌉ - 1).toNat
      else 0 :=
  c1_spawn_accumulator envZero psScenarioC1 [1/2, 1/2, 1/2] rnd2Zero rfl
    (by rw [psScenarioC1_rate]; norm_num)
    (show (0 : ℚ) ≤ 1 by norm_num)
    (by norm_num)

/-- C2: in every update(dt) call, the live collection afterwards consists
exactly of those particles (pre-existing and freshly spawned in the same
call) whose lifetime at the start of the pass was strictly positive,
each with its lifetime decremented by exactly dt; a particle measured as
expired is dropped, so the check uses the previous frame's lifetime and
retirement is one frame later than the zero crossing. The source also
applies the decrement to the erased particle's storage, but through a
dangling pointer, so that write is unobservable. -/
theorem c2_lifetime_decrement_and_presence (env : Env) (ps : ParticleSystem)
    (dt : ℚ) (rnd : ℕ → RandSample) :
    (update env ps dt rnd).m_particles =
      ((ps.m_particles ++ spawnList env ps dt rnd).filter
          (fun p => decide (0 < p.controller.lifetime))).map (ageParticle ps dt)
    ∧ ∀ p : Particle,
        (ageParticle ps dt p).controller.lifetime = p.controller.lifetime - dt :=
  ⟨update_particles env ps dt rnd, fun _ => rfl⟩

theorem updateSpawnCount_psOneTick : updateSpawnCount psOneTick 1 = 0 := by
  show (drain (if psOneTick.m_is_emitted then psOneTick.m_timer + psOneTick.m_rate * 1
    else psOneTick.m_timer)).1 = 0
  have hif : (if psOneTick.m_is_emitted then psOneTick.m_timer + psOneTick.m_rate * 1
    else psOneTick.m_timer) = 0 := rfl
  rw [hif, drain_zero]

theorem spawnList_psOneTick : spawnList envZero psOneTick 1 rndZero = [] := by
  show (List.range (updateSpawnCount psOneTick 1)).map _ = []
  rw [updateSpawnCount_psOneTick]
  rfl

theorem update_psOneTick_particles :
    (update envZero psOneTick 1 rndZero).m_particles
      = [ageParticle psOneTick 1 (particleWithLifetime 1)] := by
  rw [update_particles, spawnList_psOneTick]
  rfl

/-- C3, counterexample: a particle whose lifetime is exactly 1 is NOT
removed by the update(1) call in which its lifetime crosses to 0: it is
still in the collection (with lifetime 0) after that call, and only the
next update call removes it. -/
theorem c3_counterexample :
    (update envZero psOneTick 1 rndZero).m_particles.map
        (fun p => p.controller.lifetime) = [0]
    ∧ (update envZero psOneTick 1 rndZero).m_particles ≠ []
    ∧ (update envZero (update envZero psOneTick 1 rndZero) 1 rndZero).m_particles = [] := by
  have ht1 : (update envZero psOneTick 1 rndZero).m_timer = 0 := by
    rw [update_timer]
    have hif : (if psOneTick.m_is_emitted then psOneTick.m_timer + psOneTick.m_rate * 1
      else psOneTick.m_timer) = 0 := rfl
    rw [hif, drain_zero]
  have hsc2 : updateSpawnCount (update envZero psOneTick 1 rndZero) 1 = 0 := by
    show (drain ((update envZero psOneTick 1 rndZero).m_timer)).1 = 0
    rw [ht1, drain_zero]
  have hsl2 : spawnList envZero (update envZero psOneTick 1 rndZero) 1 rndZero = [] := by
    show (List.range (updateSpawnCount (update envZero psOneTick 1 rndZero) 1)).map _ = []
    rw [hsc2]
    rfl
  refine ⟨?_, ?_, ?_⟩
  · rw [update_psOneTick_particles]
    norm_num [ageParticle, particleWithLifetime]
  · rw [update_psOneTick_particles]
    exact List.cons_ne_nil _ _
  · rw [update_particles, hsl2, update_psOneTick_particles]
    norm_num [ageParticle, particleWithLifetime, List.filter_cons]

/-- C3 (amended): each update(dt) decrements the lifetime of every kept
particle by exactly dt, but a particle is removed in the first update
step that BEGINS with its lifetime ≤ 0, i.e. one step after the step in
which the lifetime crosses ≤ 0 (the keep-or-erase check reads the
lifetime before the decrement). The survivors are exactly the particles
that started the pass with positive lifetime. -/
theorem c3_retirement_delayed (env : Env) (ps : ParticleSystem) (dt : ℚ)
    (rnd : ℕ → RandSample) :
    (update env ps dt rnd).m_particles.length =
      (ps.m_particles ++ spawnList env ps dt rnd).countP
        (fun p => decide (0 < p.controller.lifetime))
    ∧ ∀ p ∈ (update env ps dt rnd).m_particles,
        ∃ q ∈ ps.m_particles ++ spawnList env ps dt rnd,
          0 < q.controller.lifetime ∧
            p.controller.lifetime = q.controller.lifetime - dt := by
  constructor
  · rw [update_particles, List.length_map]
    exact (List.countP_eq_length_filter _ _).symm
  · intro p hp
    rw [update_particles] at hp
    obtain ⟨q, hq, rfl⟩ := List.mem_map.mp hp
    obtain ⟨hqmem, hqpos⟩ := List.mem_filter.mp hq
    exact ⟨q, hqmem, of_decide_eq_true hqpos, rfl⟩

/-- Witness for c3_retirement_delayed on a concrete state: one particle
with lifetime 1, update(1); the count part and the membership part are
both exercised. -/
theorem c3_retirement_delayed_witness :
    ((update envZero psOneTick 1 rndZero).m_particles.length =
      (psOneTick.m_particles ++ spawnList envZero psOneTick 1 rndZero).countP
        (fun p => decide (0 < p.controller.lifetime)))
    ∧ ∃ q ∈ psOneTick.m_particles ++ spawnList envZero psOneTick 1 rndZero,
        0 < q.controller.lifetime ∧
          (ageParticle psOneTick 1 (particleWithLifetime 1)).controller.lifetime =
            q.controller.lifetime - 1 := by
  refine ⟨(c3_retirement_delayed envZero psOneTick 1 rndZero).1, ?_⟩
  refine (c3_retirement_delayed envZero psOneTick 1 rndZero).2 _ ?_
  rw [update_psOneTick_particles]
  exact List.mem_singleton_self _

/-- C4: on an empty collection, setExplosion(N, r) with N > 0 spawns
exactly N particles, disables continuous emission, and places the i-th
particle at emitter + r * (cos(i*2pi/N), sin(i*2pi/N)) with velocity
(cos(i*2pi/N), sin(i*2pi/N)) * velocity (radially outward; its magnitude
is the configured velocity whenever cos^2 + sin^2 = 1, which holds for
exact trigonometry). The trigonometric functions and pi are the abstract
environment's, mirroring the float calls in the source. -/
theorem c4_explosion_ring (env : Env) (ps : ParticleSystem) (N : ℕ) (r : ℚ)
    (rnd : ℕ → RandSample) (hemp : ps.m_particles = []) (_hN : 0 < N) :
    ((setExplosion env ps N r rnd).m_particles.length = N)
    ∧ ((setExplosion env ps N r rnd).m_is_emitted = false)
    ∧ ∀ i, i < N →
        ∃ p, (setExplosion env ps N r rnd).m_particles[i]? = some p
          ∧ p.sprite.pos =
              ⟨env.cos ((i : ℚ) * (env.pi * 2 / (N : ℚ))) * r + ps.m_emitter.x,
               env.sin ((i : ℚ) * (env.pi * 2 / (N : ℚ))) * r + ps.m_emitter.y⟩
          ∧ p.controller.velocity =
              ⟨env.cos ((i : ℚ) * (env.pi * 2 / (N : ℚ))) * ps.m_velocity,
               env.sin ((i : ℚ) * (env.pi * 2 / (N : ℚ))) * ps.m_velocity⟩ := by
  have hset : (setExplosion env ps N r rnd).m_particles =
      (List.range N).map
        (fun i => explosionParticle env (setEmitted ps false) r
          (env.pi * 2 / (N : ℚ)) i (rnd i)) := by
    simp [setExplosion, hemp, setEmitted]
  have hemit : (setExplosion env ps N r rnd).m_is_emitted = false := by
    simp [setExplosion, hemp, setEmitted]
  refine ⟨?_, hemit, ?_⟩
  · rw [hset, List.length_map, List.length_range]
  · intro i hi
    refine ⟨explosionParticle env (setEmitted ps false) r (env.pi * 2 / (N : ℚ)) i (rnd i),
      ?_, rfl, rfl⟩
    rw [hset]
    simp [List.getElem?_map, List.getElem?_range, hi]

/-- Witness for c4_explosion_ring: a burst of 3 particles with radius 5
from the freshly constructed engine. -/
theorem c4_explosion_ring_witness :
    ParticleSystem.init.m_particles = ([] : List Particle) ∧ 0 < 3 ∧
      (setExplosion envZero ParticleSystem.init 3 5 rndZero).m_particles.length = 3 :=
  ⟨rfl, by norm_num,
    (c4_explosion_ring envZero ParticleSystem.init 3 5 rndZero rfl (by norm_num)).1⟩

theorem updateSpawnCount_psAlpha : updateSpawnCount psAlpha 0 = 0 := by
  show (drain (if psAlpha.m_is_emitted then psAlpha.m_timer + psAlpha.m_rate * 0
    else psAlpha.m_timer)).1 = 0
  have hif : (if psAlpha.m_is_emitted then psAlpha.m_timer + psAlpha.m_rate * 0
    else psAlpha.m_timer) = 0 := rfl
  rw [hif, drain_zero]

theorem spawnList_psAlpha : spawnList envZero psAlpha 0 rndZero = [] := by
  show (List.range (updateSpawnCount psAlpha 0)).map _ = []
  rw [updateSpawnCount_psAlpha]
  rfl

theorem update_psAlpha_particles :
    (update envZero psAlpha 0 rndZero).m_particles
      = [ageParticle psAlpha 0 (particleWithLifetime 2)] := by
  rw [update_particles, spawnList_psAlpha]
  have hmp : psAlpha.m_particles = [particleWithLifetime 2] := rfl
  rw [hmp]
  norm_num [particleWithLifetime, List.filter_cons]

/-- C5, counterexample: with lifetimeMax = 1 and a particle at lifetime
2 (reachable, since a fresh particle's lifetime is a draw from
[0, lifetimeMax] plus 1), an attenuated update sets alpha to 254, not
the 255 that the claimed clamp(lifetime/lifetimeMax, 0, 1) * 255 would
give: the source computes static_cast<Uint8>((2/1) * 255) with no
clamping (undefined behaviour in C++ for the out-of-range value; x86
builds truncate 510 to its low byte 254 as modelled). -/
theorem c5_counterexample :
    (update envZero psAlpha 0 rndZero).m_particles.map (fun p => p.sprite.color.a) = [254]
    ∧ (update envZero psAlpha 0 rndZero).m_particles.map (fun p => p.sprite.color.a)
        ≠ [255] := by
  have h254 : (update envZero psAlpha 0 rndZero).m_particles.map
      (fun p => p.sprite.color.a) = [254] := by
    rw [update_psAlpha_particles]
    norm_num [ageParticle, psAlpha, ParticleSystem.init, particleWithLifetime, toUint8]
    decide
  exact ⟨h254, by rw [h254]; norm_num⟩

/-- C5 (amended): during update(dt), every pre-existing particle whose
lifetime check passes yields a particle in the new collection whose
position advanced by velocity * dt and whose scale was multiplied
componentwise by exponentialGrowth (compounding each frame), and whose
alpha, when isAttenuated, is the 8-bit truncation of
(lifetime / lifetimeMax) * 255 with NO clamping of the ratio (out-of-
range values wrap; in C++ such casts are undefined behaviour, modelled
here as the x86 truncation); when isAttenuated is false the alpha is
unchanged. -/
theorem c5_per_particle_effects (env : Env) (ps : ParticleSystem) (dt : ℚ)
    (rnd : ℕ → RandSample) (p : Particle) (hmem : p ∈ ps.m_particles)
    (hpos : 0 < p.controller.lifetime) :
    ∃ q ∈ (update env ps dt rnd).m_particles,
      q.sprite.pos = ⟨p.sprite.pos.x + p.controller.velocity.x * dt,
                      p.sprite.pos.y + p.controller.velocity.y * dt⟩
      ∧ q.sprite.scale = ⟨p.sprite.scale.x * ps.m_exponential_growth.x,
                          p.sprite.scale.y * ps.m_exponential_growth.y⟩
      ∧ q.sprite.color.a =
          (if ps.m_is_attenuated
           then toUint8 (p.controller.lifetime / ps.m_lifetime_max * 255)
           else p.sprite.color.a) := by
  refine ⟨ageParticle ps dt p, ?_, rfl, rfl, ?_⟩
  · rw [update_particles]
    refine List.mem_map.mpr ⟨p, ?_, rfl⟩
    refine List.mem_filter.mpr ⟨List.mem_append_left _ hmem, ?_⟩
    exact decide_eq_true hpos
  · by_cases h : ps.m_is_attenuated <;> simp [ageParticle, h]

/-- Witness for c5_per_particle_effects at the concrete attenuated
state: the survivor's alpha is the unclamped truncation. -/
theorem c5_per_particle_effects_witness :
    particleWithLifetime 2 ∈ psAlpha.m_particles ∧
    (0 : ℚ) < (particleWithLifetime 2).controller.lifetime ∧
    ∃ q ∈ (update envZero psAlpha 0 rndZero).m_particles,
      q.sprite.pos = ⟨(particleWithLifetime 2).sprite.pos.x +
                        (particleWithLifetime 2).controller.velocity.x * 0,
                      (particleWithLifetime 2).sprite.pos.y +
                        (particleWithLifetime 2).controller.velocity.y * 0⟩
      ∧ q.sprite.scale = ⟨(particleWithLifetime 2).sprite.scale.x * psAlpha.m_exponential_growth.x,
                          (particleWithLifetime 2).sprite.scale.y * psAlpha.m_exponential_growth.y⟩
      ∧ q.sprite.color.a =
          (if psAlpha.m_is_attenuated
           then toUint8 ((particleWithLifetime 2).controller.lifetime / psAlpha.m_lifetime_max * 255)
           else (particleWithLifetime 2).sprite.color.a) :=
  ⟨List.mem_singleton_self _, show (0 : ℚ) < 2 by norm_num,
    c5_per_particle_effects envZero psAlpha 0 rndZero (particleWithLifetime 2)
      (List.mem_singleton_self _) (show (0 : ℚ) < 2 by norm_num)⟩

/-- C6: setExplosion on a non-empty collection is a complete no-op: the
whole engine state, including the particle list, the isEmitted flag and
the timer, is returned unchanged (the entire body is guarded by the
emptiness test). -/
theorem c6_burst_noop (env : Env) (ps : ParticleSystem) (n : ℕ) (r : ℚ)
    (rnd : ℕ → RandSample) (h : ps.m_particles ≠ []) :
    setExplosion env ps n r rnd = ps := by
  simp only [setExplosion, if_neg h]

/-- Witness for c6_burst_noop on a busy state (one live particle, timer
one half, emission on). -/
theorem c6_burst_noop_witness :
    psBusy.m_particles ≠ [] ∧ setExplosion envZero psBusy 7 2 rndZero = psBusy :=
  ⟨List.cons_ne_nil _ _, c6_burst_noop envZero psBusy 7 2 rndZero (List.cons_ne_nil _ _)⟩

/-- C7, counterexample: setExplosion(0, r) on an empty collection with
emission enabled is NOT a state-preserving no-op: it spawns nothing and
raises no error (the float division 2 * pi / 0 yields an unused
infinity), but it still sets isEmitted to false, so engine state does
change. -/
theorem c7_counterexample :
    psArmed.m_is_emitted = true
    ∧ (setExplosion envZero psArmed 0 1 rndZero).m_is_emitted = false
    ∧ setExplosion envZero psArmed 0 1 rndZero ≠ psArmed
    ∧ (setExplosion envZero psArmed 0 1 rndZero).m_particles = [] := by
  have hset : setExplosion envZero psArmed 0 1 rndZero = setEmitted psArmed false := rfl
  refine ⟨rfl, by rw [hset]; rfl, ?_, by rw [hset]; rfl⟩
  intro hc
  have : (false : Bool) = true := by
    calc (false : Bool) = (setEmitted psArmed false).m_is_emitted := rfl
      _ = psArmed.m_is_emitted := by rw [← hset, hc]
      _ = true := rfl
  exact Bool.false_ne_true this

/-- C7 (amended): setExplosion with splashAmount = 0 spawns no particles
and propagates no domain error (the angular-offset computation is a
float division by zero, which yields an IEEE infinity that the loop
never uses), but it is not guarded as a no-op: on an empty collection it
still disables continuous emission; on a non-empty collection it leaves
everything unchanged. -/
theorem c7_zero_splash (env : Env) (ps : ParticleSystem) (r : ℚ)
    (rnd : ℕ → RandSample) :
    (setExplosion env ps 0 r rnd).m_particles = ps.m_particles
    ∧ setExplosion env ps 0 r rnd =
        (if ps.m_particles = [] then setEmitted ps false else ps) := by
  by_cases h : ps.m_particles = []
  · obtain ⟨mp, me, mra, mps, meg, md, mdsp, mv, mlm, mr, mt, mie, mia, mi⟩ := ps
    obtain rfl : mp = [] := h
    exact ⟨rfl, rfl⟩
  · refine ⟨?_, ?_⟩ <;> simp only [setExplosion, if_neg h]

/-- The timer member is untouched by setExplosion in both branches. -/
theorem setExplosion_timer (env : Env) (ps : ParticleSystem) (n : ℕ) (r : ℚ)
    (rnd : ℕ → RandSample) : (setExplosion env ps n r rnd).m_timer = ps.m_timer := by
  simp only [setExplosion]
  split
  · rfl
  · rfl

/-- C8: every spawned particle, from continuous emission (createParticle)
or from a burst (explosionParticle), starts with lifetime equal to the
lifetime draw plus 1; with the draw in its documented range
[0, lifetimeMax] the initial lifetime lies in [1, lifetimeMax + 1], and
when lifetimeMax = 0 it is exactly 1. -/
theorem c8_lifetime_floor (env : Env) (ps : ParticleSystem) (rs : RandSample)
    (radius offset : ℚ) (i : ℕ)
    (h0 : 0 ≤ rs.lifeSample) (h1 : rs.lifeSample ≤ ps.m_lifetime_max) :
    ((createParticle env ps rs).controller.lifetime = rs.lifeSample + 1
      ∧ 1 ≤ (createParticle env ps rs).controller.lifetime
      ∧ (createParticle env ps rs).controller.lifetime ≤ ps.m_lifetime_max + 1)
    ∧ ((explosionParticle env ps radius offset i rs).controller.lifetime = rs.lifeSample + 1
      ∧ 1 ≤ (explosionParticle env ps radius offset i rs).controller.lifetime
      ∧ (explosionParticle env ps radius offset i rs).controller.lifetime
          ≤ ps.m_lifetime_max + 1)
    ∧ (ps.m_lifetime_max = 0 → (createParticle env ps rs).controller.lifetime = 1) := by
  have hc : (createParticle env ps rs).controller.lifetime = rs.lifeSample + 1 := rfl
  have he : (explosionParticle env ps radius offset i rs).controller.lifetime
      = rs.lifeSample + 1 := rfl
  refine ⟨⟨hc, ?_, ?_⟩, ⟨he, ?_, ?_⟩, ?_⟩
  · rw [hc]; linarith
  · rw [hc]; linarith
  · rw [he]; linarith
  · rw [he]; linarith
  · intro hmax
    rw [hmax] at h1
    have hz : rs.lifeSample = 0 := le_antisymm h1 h0
    rw [hc, hz]
    norm_num

/-- Witness for c8_lifetime_floor: the zero draw on the freshly
constructed engine (lifetimeMax 0) gives lifetime exactly 1. -/
theorem c8_lifetime_floor_witness :
    (0 : ℚ) ≤ rsZero.lifeSample
    ∧ rsZero.lifeSample ≤ ParticleSystem.init.m_lifetime_max
    ∧ (createParticle envZero ParticleSystem.init rsZero).controller.lifetime
        = rsZero.lifeSample + 1
    ∧ (ParticleSystem.init.m_lifetime_max = 0 →
        (createParticle envZero ParticleSystem.init rsZero).controller.lifetime = 1) :=
  ⟨le_refl 0, le_refl 0,
    (c8_lifetime_floor envZero ParticleSystem.init rsZero 0 0 0 (le_refl 0) (le_refl 0)).1.1,
    (c8_lifetime_floor envZero ParticleSystem.init rsZero 0 0 0 (le_refl 0) (le_refl 0)).2.2⟩

/-- C9: when isEmitted is false (and the timer is at most 1, which holds
in every reachable state), update(dt) leaves the spawn accumulator
untouched and spawns nothing: the drain loop does not fire and the
particle pass runs on the old particles only. The accumulated fraction
is retained, and setEmitted never touches the timer, so toggling the
flag off and back on preserves the timer exactly. -/
theorem c9_paused_emission (env : Env) (ps : ParticleSystem) (dt : ℚ)
    (rnd : ℕ → RandSample) (hem : ps.m_is_emitted = false) (ht : ps.m_timer ≤ 1) :
    (update env ps dt rnd).m_timer = ps.m_timer
    ∧ spawnList env ps dt rnd = []
    ∧ (update env ps dt rnd).m_particles = ps.m_particles.filterMap (stepParticle ps dt)
    ∧ ∀ b c : Bool, (setEmitted (setEmitted ps b) c).m_timer = ps.m_timer := by
  have hif : (if ps.m_is_emitted then ps.m_timer + ps.m_rate * dt else ps.m_timer)
      = ps.m_timer := by
    rw [hem]
    exact if_neg Bool.false_ne_true
  have hdrain : drain ps.m_timer = (0, ps.m_timer) := drain_of_not_gt (not_lt.mpr ht)
  have hsc : updateSpawnCount ps dt = 0 := by
    show (drain (if ps.m_is_emitted then ps.m_timer + ps.m_rate * dt
      else ps.m_timer)).1 = 0
    rw [hif, hdrain]
  have hsl : spawnList env ps dt rnd = [] := by
    show (List.range (updateSpawnCount ps dt)).map _ = []
    rw [hsc]
    rfl
  refine ⟨?_, hsl, ?_, fun b c => rfl⟩
  · rw [update_timer, hif, hdrain]
  · show (ps.m_particles ++ spawnList env ps dt rnd).filterMap (stepParticle ps dt)
      = ps.m_particles.filterMap (stepParticle ps dt)
    rw [hsl, List.append_nil]

/-- Witness for c9_paused_emission: a fresh engine with one live
particle, emission off. -/
theorem c9_paused_emission_witness :
    psOneTick.m_is_emitted = false ∧ psOneTick.m_timer ≤ 1 ∧
      (update envZero psOneTick 1 rndZero).m_timer = psOneTick.m_timer :=
  ⟨rfl, show (0 : ℚ) ≤ 1 by norm_num,
    (c9_paused_emission envZero psOneTick 1 rndZero rfl
      (show (0 : ℚ) ≤ 1 by norm_num)).1⟩

/-- C10: the spawn accumulator starts at 0 and is at most 1 in every
state reachable through the public interface (the constructor, the
setters, setExplosion and update): only update changes it, and its drain
loop always exits with timer ≤ 1. Consequently, in a reachable state
with isEmitted false the unconditional drain loop at the top of update
can never spawn: its iteration count is 0 for every dt. -/
theorem c10_timer_invariant (env : Env) (ps : ParticleSystem)
    (h : Reachable env ps) :
    ps.m_timer ≤ 1
    ∧ ParticleSystem.init.m_timer = 0
    ∧ (ps.m_is_emitted = false → ∀ dt : ℚ, updateSpawnCount ps dt = 0) := by
  have htimer : ps.m_timer ≤ 1 := by
    induction h with
    | init => show (0 : ℚ) ≤ 1; norm_num
    | texture _ ih => exact ih
    | color _ ih => exact ih
    | particleSize _ ih => exact ih
    | emitter _ ih => exact ih
    | direction _ ih => exact ih
    | dispersion _ ih => exact ih
    | velocity _ ih => exact ih
    | respawnRate _ ih => exact ih
    | respawnArea _ ih => exact ih
    | lifeTime _ ih => exact ih
    | growth _ ih => exact ih
    | emitted _ ih => exact ih
    | attenuated _ ih => exact ih
    | explosion _ ih =>
      rw [setExplosion_timer]
      exact ih
    | step _ _ =>
      rw [update_timer]
      exact drain_snd_le_one _
  refine ⟨htimer, rfl, ?_⟩
  intro hem dt
  have hif : (if ps.m_is_emitted then ps.m_timer + ps.m_rate * dt else ps.m_timer)
      = ps.m_timer := by
    rw [hem]
    exact if_neg Bool.false_ne_true
  show (drain (if ps.m_is_emitted then ps.m_timer + ps.m_rate * dt
    else ps.m_timer)).1 = 0
  rw [hif, drain_of_not_gt (not_lt.mpr htimer)]

/-- Witness for c10_timer_invariant on a state reached by an actual
update call: rate 2, emission on, one update of one half second. -/
theorem c10_timer_invariant_witness :
    Reachable envZero (update envZero psScenarioC1 (1/2) rndZero) ∧
      (update envZero psScenarioC1 (1/2) rndZero).m_timer ≤ 1 := by
  have hr : Reachable envZero (update envZero psScenarioC1 (1/2) rndZero) :=
    Reachable.step (Reachable.emitted (Reachable.respawnRate Reachable.init))
  exact ⟨hr, (c10_timer_invariant envZero _ hr).1⟩

end ParticleSystem

end PartGen
